import Mathlib

/-!
# Verification of the monitoring core of rust-monitor-JsWebHyper

Shallow embedding of the repository's change-detection engine, written from
the Rust sources:

* `src/monitors/static_monitor.rs`  — `StaticMonitor`
* `src/monitors/api_monitor.rs`     — `ApiMonitor`
* `src/monitors/hyperliquid_monitor.rs` — `HyperliquidMonitor`
* `src/notifiers/server_chan.rs`    — `ServerChanNotifier`
* `src/gui.rs`                      — `MonitorApp` task supervisor

Modelling conventions:

* Network I/O is external: each `check` takes the outcome of its fetch
  pipeline as an explicit argument (transport error, HTTP status, parsed
  payload).  The HTTP body-read step is folded into the response value.
* `&mut self` methods become functions `State → Input → State × Result`;
  `anyhow::Result` becomes `Except String`, carrying the formatted error
  message.
* Rust `f64` fields are modelled as `ℚ`; Rust's fixed-decimal formatting
  (round half to even) is `fmtFixed`.
* Wall-clock / timezone dependent rendering (`chrono` local-time
  formatting, log timestamps) is environment input that a pure embedding
  cannot reproduce; those renderings are abstracted (see
  `format_timestamp`, `MonitorApp.addLog`).  No claim below depends on
  their output.
* `std::collections::hash_map::DefaultHasher` (SipHash-1-3) is external
  std code; it is modelled by the exact stream of strings the source
  writes into it (`Hash::hash` calls in program order).  Equal streams
  give equal hashes; the model idealises the hasher as injective on that
  stream (hash collisions are abstracted away).
-/

/-- A detected change (`src/monitors/mod.rs`, `struct Change`). -/
structure Change where
  message : String
  details : String
deriving DecidableEq, Repr

/-- An HTTP response: status code plus body text.  The body-read step
(`response.text()` / `response.json()`) is folded into the value. -/
structure HttpResponse where
  status : Nat
  body : String
deriving DecidableEq, Repr

/-- `reqwest::StatusCode::is_success`: 2xx. -/
def statusIsSuccess (s : Nat) : Bool := 200 ≤ s && s < 300

/-! ## String helpers shared by the monitors -/

/-- Character-list prefix test (helper for substring search). -/
def listIsPref : List Char → List Char → Bool
  | [], _ => true
  | _ :: _, [] => false
  | a :: as, b :: bs => a == b && listIsPref as bs

/-- Character-list substring test (helper for `strContainsStr` and
Rust's `str::find`). -/
def listHasSub (pat : List Char) : List Char → Bool
  | [] => pat.isEmpty
  | c :: rest => listIsPref pat (c :: rest) || listHasSub pat rest

/-- `haystack.contains(needle)` on Rust strings. -/
def strContainsStr (haystack pat : String) : Bool :=
  listHasSub pat.data haystack.data

/-- Index of the first occurrence of `pat` in `s` (Rust `str::find`,
at character rather than byte granularity), as helper for
`extract_between`. -/
def listFindSub (pat : List Char) : List Char → Option Nat
  | [] => if pat.isEmpty then some 0 else none
  | c :: rest =>
    if listIsPref pat (c :: rest) then some 0
    else (listFindSub pat rest).map (· + 1)

/-- Helper `extract_between` of `static_monitor.rs`: the content strictly
between the first `start_marker` and the next `end_marker`. -/
def extract_between (content start_marker end_marker : String) : Option String :=
  match listFindSub start_marker.data content.data with
  | none => none
  | some i =>
    let after := content.data.drop (i + start_marker.data.length)
    match listFindSub end_marker.data after with
    | none => none
    | some j => some (String.mk (after.take j))

/-! ## StaticMonitor (`src/monitors/static_monitor.rs`) -/

/-- State of a static webpage monitor.  Note: the Rust constructor takes
a `_selector` parameter that it never stores or uses, so no selector
field exists in the state. -/
structure StaticMonitor where
  url : String
  interval_secs : Nat
  last_content : Option String
  notes : String
deriving DecidableEq, Repr

/-- `StaticMonitor::new(url, _selector, interval_secs)`.  The selector
argument is discarded by the source (`_selector`). -/
def StaticMonitor.new (url : String) (_selector : String) (interval_secs : Nat) :
    StaticMonitor :=
  { url := url
    interval_secs := interval_secs
    last_content := none
    notes := url }

/-- `StaticMonitor::new_with_notes`. -/
def StaticMonitor.new_with_notes (url selector : String) (interval_secs : Nat)
    (notes : String) : StaticMonitor :=
  let monitor := StaticMonitor.new url selector interval_secs
  if (notes.trim.isEmpty : Bool) then monitor else { monitor with notes := notes }

/-- `StaticMonitor::get_content`: unwrap the HTTP fetch, demanding a
success status.  The network outcome is the explicit argument. -/
def StaticMonitor.get_content (_m : StaticMonitor)
    (net : Except String HttpResponse) : Except String String :=
  match net with
  | .error e => .error ("Failed to get webpage content: " ++ e)
  | .ok r =>
    if statusIsSuccess r.status then .ok r.body
    else .error ("HTTP request failed, status code: " ++ toString r.status)

/-- `StaticMonitor::generate_change_description`: length delta plus an
optional `<title>` diff.  Rust `str::len` counts bytes
(`String.utf8ByteSize`). -/
def StaticMonitor.generate_change_description (_m : StaticMonitor)
    (old_content new_content : String) : String :=
  let old_len := old_content.utf8ByteSize
  let new_len := new_content.utf8ByteSize
  let changes :=
    if old_len < new_len then
      "内容增加: " ++ toString old_len ++ " -> " ++ toString new_len ++
        " 字节 (增加 " ++ toString (new_len - old_len) ++ " 字节)\n"
    else if new_len < old_len then
      "内容减少: " ++ toString old_len ++ " -> " ++ toString new_len ++
        " 字节 (减少 " ++ toString (old_len - new_len) ++ " 字节)\n"
    else
      "内容长度相同，但内容已变化\n"
  if strContainsStr old_content "<title>" && strContainsStr new_content "<title>" then
    let old_title := (extract_between old_content "<title>" "</title>").getD "未找到"
    let new_title := (extract_between new_content "<title>" "</title>").getD "未找到"
    if old_title ≠ new_title then
      changes ++ "标题变化: \x27" ++ old_title ++ "\x27 -> \x27" ++ new_title ++ "\x27\n"
    else changes
  else changes

/-- `<StaticMonitor as Monitor>::check`: one fetch-and-compare cycle.
Returns the updated monitor alongside the `Result<Option<Change>>`. -/
def StaticMonitor.check (m : StaticMonitor) (net : Except String HttpResponse) :
    StaticMonitor × Except String (Option Change) :=
  match m.get_content net with
  | .ok current_content =>
    match m.last_content with
    | some last_content =>
      if last_content ≠ current_content then
        let change_description := m.generate_change_description last_content current_content
        let change : Change :=
          { message := m.notes ++ " " ++ change_description
            details :=
              "Changes:\n" ++ change_description ++
              "\n\nCurrent content length: " ++ toString current_content.utf8ByteSize ++
              " bytes\n\nPrevious content length: " ++ toString last_content.utf8ByteSize ++
              " bytes" }
        ({ m with last_content := some current_content }, .ok (some change))
      else
        (m, .ok none)
    | none =>
      let change : Change :=
        { message := "start: " ++ m.notes
          details := "Initial content length: " ++ toString current_content.utf8ByteSize ++
            " bytes" }
      ({ m with last_content := some current_content }, .ok (some change))
  | .error e =>
    (m, .error ("Failed to get webpage content: " ++ e))

/-! ## ApiMonitor (`src/monitors/api_monitor.rs`) -/

/-- State of a JSON API monitor. -/
structure ApiMonitor where
  url : String
  selector : String
  last_value : Option String
  interval_secs : Nat
  notes : String
deriving DecidableEq, Repr

/-- `ApiMonitor::new(url, selector, interval_secs)`. -/
def ApiMonitor.new (url selector : String) (interval_secs : Nat) : ApiMonitor :=
  { url := url
    selector := selector
    last_value := none
    interval_secs := interval_secs
    notes := url }

/-- `ApiMonitor::new_with_notes`. -/
def ApiMonitor.new_with_notes (url selector : String) (interval_secs : Nat)
    (notes : String) : ApiMonitor :=
  let monitor := ApiMonitor.new url selector interval_secs
  if (notes.trim.isEmpty : Bool) then monitor else { monitor with notes := notes }

/-- Rust `str::trim_matches('"')`: strip all leading and trailing
double-quote characters (applied to `Value::to_string()` output). -/
def trimMatchesQuote (s : String) : String :=
  String.mk (((s.data.dropWhile (· == '\"')).reverse.dropWhile (· == '\"')).reverse)

/-- `ApiMonitor::generate_change_description`: for long comma-separated
values, report added/removed items; otherwise a generic notice.
Rust `str::len` counts bytes (`String.utf8ByteSize`). -/
def ApiMonitor.generate_change_description (_m : ApiMonitor)
    (old_value new_value : String) : String :=
  let fallback := "数据已更新"
  if 100 < old_value.utf8ByteSize || 100 < new_value.utf8ByteSize then
    if strContainsStr old_value "," && strContainsStr new_value "," then
      let old_items := (old_value.splitOn ",").map String.trim
      let new_items := (new_value.splitOn ",").map String.trim
      let added := new_items.filter (fun item => !(old_items.contains item))
      let removed := old_items.filter (fun item => !(new_items.contains item))
      let changes :=
        (if added.isEmpty then "" else "新增: " ++ String.intercalate ", " added ++ "\n") ++
        (if removed.isEmpty then "" else "移除: " ++ String.intercalate ", " removed ++ "\n")
      if changes.isEmpty then fallback else changes
    else fallback
  else fallback

/-- Outcome of the API fetch pipeline in `ApiMonitor::check`, up to and
including the external JSONPath evaluation (`jsonpath_lib::select`).
`selected vals` carries the `Value::to_string()` serialisations of the
matched values. -/
inductive ApiFetchResult where
  | reqError (e : String)
  | badStatus (code : Nat)
  | jsonError (e : String)
  | selError (e : String)
  | selected (vals : List String)
deriving DecidableEq, Repr

/-- `<ApiMonitor as Monitor>::check`.  Transport/status/parse failures
are reported as an `Ok(Some(Change))`; only a JSONPath evaluation error
becomes `Err`. -/
def ApiMonitor.check (m : ApiMonitor) (fetch : ApiFetchResult) :
    ApiMonitor × Except String (Option Change) :=
  match fetch with
  | .reqError e =>
    (m, .ok (some { message := "API request failed: " ++ e
                    details := "URL: " ++ m.url }))
  | .badStatus code =>
    (m, .ok (some { message := "API returned status code " ++ toString code
                    details := "URL: " ++ m.url }))
  | .jsonError e =>
    (m, .ok (some { message := "Failed to parse JSON response: " ++ e
                    details := "URL: " ++ m.url }))
  | .selError e => (m, .error ("JSONPath selector error: " ++ e))
  | .selected results =>
    let selector := m.selector.trim
    let result : Option String :=
      match results with
      | [] => none
      | [r] => some (trimMatchesQuote r)
      | rs => some ("[" ++ String.intercalate ", " (rs.map trimMatchesQuote) ++ "]")
    match m.last_value with
    | none =>
      match result with
      | some new_value =>
        ({ m with last_value := some new_value },
         .ok (some
           { message := "start: " ++ m.notes
             details := "JSONPath: " ++ selector ++ "\nInitial value: " ++ new_value ++
               "\n\nNote: This may represent multiple values if your JSONPath selector matches multiple elements." }))
      | none =>
        ({ m with last_value := none },
         .ok (some
           { message := "start: " ++ m.notes
             details := "URL: " ++ m.url ++ "\nSelector: " ++ m.selector ++
               "\n\nThe JSONPath selector did not match any data. Please check if your selector is correct." }))
    | some old_value =>
      match result with
      | some new_value =>
        if old_value ≠ new_value then
          let change_description := m.generate_change_description old_value new_value
          ({ m with last_value := some new_value },
           .ok (some
             { message := m.notes ++ " " ++ change_description
               details := "JSONPath: " ++ selector ++ "\n\nChanges:\n" ++ change_description ++
                 "\n\nCurrent value:\n" ++ new_value ++ "\n\nPrevious value:\n" ++ old_value ++
                 "\n\nNote: If your JSONPath selector matches multiple elements, this represents the combined changes." }))
        else
          ({ m with last_value := some new_value }, .ok none)
      | none =>
        (m, .ok (some
          { message := m.notes ++ " - Data extraction failed"
            details := "URL: " ++ m.url ++ "\nSelector: " ++ m.selector ++
              "\n\nThe JSONPath selector did not match any data after a previous successful match. The data structure may have changed." }))

/-! ## ServerChanNotifier (`src/notifiers/server_chan.rs`) -/

/-- Per-key delivery outcome, the external input of one loop iteration of
`ServerChanNotifier::send`:
* `sendErr e` — `sc_send` returned `Err` (encode/URL/transport/status
  failure), already formatted;
* `badBody e` — `sc_send` returned `Ok(body)` but
  `serde_json::from_str(body)` failed with error `e`;
* `code c message` — the body parsed; `c` is `data["code"]` with the
  source's `unwrap_or(-1)` applied, `message` is `data["message"]` with
  `unwrap_or("Unknown error")` applied. -/
inductive KeyOutcome where
  | sendErr (e : String)
  | badBody (e : String)
  | code (c : Int) (message : String)
deriving DecidableEq, Repr

/-- The error string pushed for a failing key (both failure arms of the
source use the same format). -/
def keyErrorString (key reason : String) : String :=
  "Failed to send notification to key " ++ key ++ ": " ++ reason

/-- The `for key in &self.keys` loop of `send`, over the keys in
iteration order paired with their outcomes, threading the `errors`
accumulator.  A `badBody` outcome returns `Err` immediately (the `?` on
`serde_json::from_str`). -/
def sendLoop (errors : List String) :
    List (String × KeyOutcome) → Except String (List String)
  | [] => .ok errors
  | (key, outcome) :: rest =>
    match outcome with
    | .sendErr e => sendLoop (errors ++ [keyErrorString key e]) rest
    | .badBody e => .error ("Failed to parse response: " ++ e)
    | .code c message =>
      if c ≠ 0 then sendLoop (errors ++ [keyErrorString key message]) rest
      else sendLoop errors rest

/-- `errors.join("; ")`. -/
def joinSemicolon : List String → String
  | [] => ""
  | [x] => x
  | x :: y :: rest => x ++ "; " ++ joinSemicolon (y :: rest)

/-- `<ServerChanNotifier as Notifier>::send`, over the key set in
iteration order paired with each key's delivery outcome. -/
def ServerChanNotifier.send (outcomes : List (String × KeyOutcome)) :
    Except String Unit :=
  if outcomes.isEmpty then .error "No ServerChan keys configured"
  else
    match sendLoop [] outcomes with
    | .error e => .error e
    | .ok errors =>
      if errors.isEmpty then .ok ()
      else .error ("Some notifications failed: " ++ joinSemicolon errors)

/-- The keys for which `send` actually attempts delivery (calls
`sc_send`): every iteration the loop reaches.  A `badBody` outcome is
still an attempt, but aborts the loop after it. -/
def attemptedKeys : List (String × KeyOutcome) → List String
  | [] => []
  | (key, outcome) :: rest =>
    match outcome with
    | .badBody _ => [key]
    | _ => key :: attemptedKeys rest

/-- A key outcome counts as a success when the response parsed and its
`code` field is `0`. -/
def KeyOutcome.succeeds : KeyOutcome → Bool
  | .code 0 _ => true
  | _ => false

/-! ## HyperliquidMonitor (`src/monitors/hyperliquid_monitor.rs`) -/

/-- `struct PositionInfo`; `f64` fields are modelled as `ℚ`. -/
structure PositionInfo where
  asset : String
  leverage : ℚ
  position_type : String
  entry_price : ℚ
  mark_price : ℚ
  size : ℚ
  position_value : ℚ
  pnl_percentage : ℚ
deriving DecidableEq, Repr

/-- Round to the nearest integer, ties to even — the rounding used by
Rust's `{:.N}` float formatting. -/
def rndHalfEven (x : ℚ) : ℤ :=
  let f := ⌊x⌋
  if x - f < 1/2 then f
  else if (1 : ℚ)/2 < x - f then f + 1
  else if f % 2 = 0 then f else f + 1

/-- Left-pad the decimal rendering of `n` with zeros to `d` digits. -/
def padZeros (d : Nat) (n : Nat) : String :=
  let s := toString n
  String.mk (List.replicate (d - s.length) '0') ++ s

/-- Rust `format!("{:.d}", q)`: fixed-point rendering with `d` decimal
places, rounding half to even. -/
def fmtFixed (d : Nat) (q : ℚ) : String :=
  let n := rndHalfEven (q * ((10 : ℚ) ^ d))
  let sign := if n < 0 then "-" else ""
  let m := n.natAbs
  if d = 0 then sign ++ toString m
  else sign ++ toString (m / 10 ^ d) ++ "." ++ padZeros d (m % 10 ^ d)

/-- The stream of strings `calculate_positions_hash` feeds to the
hasher: for each position in list order, `asset`, `{:.2}` of `size`,
`{:.2}` of `entry_price`, then `position_type`. -/
def positionHashTokens : List PositionInfo → List String
  | [] => []
  | pos :: rest =>
    pos.asset :: fmtFixed 2 pos.size :: fmtFixed 2 pos.entry_price ::
      pos.position_type :: positionHashTokens rest

/-- `HyperliquidMonitor::calculate_positions_hash` (the `&self` receiver
is unused by the source).  The std `DefaultHasher` is modelled by the
stream of strings hashed into it, in program order; the model treats the
hash value as that stream (injective-hasher idealisation, see the file
header). -/
def HyperliquidMonitor.calculate_positions_hash
    (positions : List PositionInfo) : List String :=
  positionHashTokens positions

/-- The normalized fields of one position that enter the fingerprint. -/
def positionKey (pos : PositionInfo) : String × String × String × String :=
  (pos.asset, fmtFixed 2 pos.size, fmtFixed 2 pos.entry_price, pos.position_type)

/-- State of a Hyperliquid account monitor.  The positions-hash baseline
stores the modelled hash value (token stream). -/
structure HyperliquidMonitor where
  address : String
  interval_secs : Nat
  monitor_spot : Bool
  monitor_contract : Bool
  last_spot_trade_id : Option String
  last_contract_trade_id : Option String
  last_positions_hash : Option (List String)
  notes : String
deriving DecidableEq, Repr

/-- `HyperliquidMonitor::new`. -/
def HyperliquidMonitor.new (address : String) (interval_secs : Nat)
    (monitor_spot monitor_contract : Bool) : HyperliquidMonitor :=
  { address := address
    interval_secs := interval_secs
    monitor_spot := monitor_spot
    monitor_contract := monitor_contract
    last_spot_trade_id := none
    last_contract_trade_id := none
    last_positions_hash := none
    notes := address }

/-- `HyperliquidMonitor::new_with_notes`. -/
def HyperliquidMonitor.new_with_notes (address : String) (interval_secs : Nat)
    (monitor_spot monitor_contract : Bool) (notes : String) : HyperliquidMonitor :=
  let monitor := HyperliquidMonitor.new address interval_secs monitor_spot monitor_contract
  if (notes.trim.isEmpty : Bool) then monitor else { monitor with notes := notes }

/-- One spot-trade record as read from the `userFills` JSON: each field
is `some` when present with the right JSON type, mirroring the source's
`as_str()` / `as_u64()` accesses. -/
structure SpotTrade where
  tid : Option String
  asset : Option String
  side : Option String
  px : Option String
  sz : Option String
  time : Option Nat
deriving DecidableEq, Repr

/-- Outcome of `get_spot_trades` plus the `as_array` inspection done by
`check_spot_trades`: transport/status/parse error, a non-array payload,
or the array of trade records. -/
inductive SpotFetch where
  | err (e : String)
  | notArray
  | trades (ts : List SpotTrade)
deriving DecidableEq, Repr

/-- Outcome of `get_contract_positions`: transport/status/parse error,
or the parsed position list. -/
inductive PosFetch where
  | err (e : String)
  | ok (positions : List PositionInfo)
deriving DecidableEq, Repr

/-- `format_timestamp` formats via `chrono` in the machine-local
timezone — an environment input a pure embedding cannot reproduce; it is
abstracted as the decimal rendering of the raw millisecond timestamp.
No claim below depends on its output. -/
def format_timestamp (timestamp : Nat) : String := toString timestamp

/-- `HyperliquidMonitor::check_spot_trades`. -/
def HyperliquidMonitor.check_spot_trades (m : HyperliquidMonitor)
    (sf : SpotFetch) : HyperliquidMonitor × Except String (Option Change) :=
  if !m.monitor_spot then (m, .ok none)
  else
    match sf with
    | .err e => (m, .error e)
    | .notArray => (m, .error "API returned data format is incorrect")
    | .trades [] => (m, .ok none)
    | .trades (latest_trade :: _) =>
      match latest_trade.tid with
      | none => (m, .error "Transaction ID format is incorrect")
      | some trade_id =>
        match m.last_spot_trade_id with
        | some last_id =>
          if last_id ≠ trade_id then
            let asset := latest_trade.asset.getD "Unknown"
            let side := if latest_trade.side.getD "" == "B" then "Buy" else "Sell"
            let price := latest_trade.px.getD "0"
            let size := latest_trade.sz.getD "0"
            let formatted_time := format_timestamp (latest_trade.time.getD 0)
            let change_description :=
              "New " ++ asset ++ " " ++ side ++ ": Asset:" ++ asset ++ ", Price:" ++
                price ++ ", Size:" ++ size ++ ", Time:" ++ formatted_time
            ({ m with last_spot_trade_id := some trade_id },
             .ok (some
               { message := m.notes ++ " - " ++ change_description
                 details := "Changed content:\nUser: " ++ m.address ++ "\nAsset: " ++
                   asset ++ "\nSide: " ++ side ++ "\nPrice: " ++ price ++ "\nSize: " ++
                   size ++ "\nTime: " ++ formatted_time ++ "\nTransaction ID: " ++
                   trade_id ++ "\n\nPrevious transaction ID: " ++ last_id ++
                   "\n\nNotes: " ++ m.notes }))
          else (m, .ok none)
        | none =>
          let asset := latest_trade.asset.getD "Unknown"
          let side := if latest_trade.side.getD "" == "B" then "Buy" else "Sell"
          let price := latest_trade.px.getD "0"
          let size := latest_trade.sz.getD "0"
          let formatted_time := format_timestamp (latest_trade.time.getD 0)
          ({ m with last_spot_trade_id := some trade_id },
           .ok (some
             { message := "Started monitoring: " ++ m.notes
               details := "Initial monitoring data:\nUser: " ++ m.address ++
                 "\nLatest transaction:\nAsset: " ++ asset ++ "\nSide: " ++ side ++
                 "\nPrice: " ++ price ++ "\nSize: " ++ size ++ "\nTime: " ++
                 formatted_time ++ "\nTransaction ID: " ++ trade_id ++
                 "\n\nNotes: " ++ m.notes }))

/-- One formatted position block of the details text. -/
def positionDetailLine (pos : PositionInfo) : String :=
  "Asset: " ++ pos.asset ++ "\nLeverage: " ++ fmtFixed 0 pos.leverage ++
    "x\nType: " ++ pos.position_type ++ "\nEntry price: " ++ fmtFixed 2 pos.entry_price ++
    "\nMark price: " ++ fmtFixed 2 pos.mark_price ++ "\nPosition size: " ++
    fmtFixed 4 pos.size ++ "\nPosition value: $" ++ fmtFixed 2 pos.position_value ++
    "\nPNL: " ++ fmtFixed 2 pos.pnl_percentage ++ "%\n\n"

/-- The accumulated `position_details` string. -/
def positionDetails (positions : List PositionInfo) : String :=
  String.join (positions.map positionDetailLine)

/-- The one-line summary of a position used in change titles. -/
def positionTitle (pos : PositionInfo) : String :=
  "Asset:" ++ pos.asset ++ " Lever:" ++ fmtFixed 0 pos.leverage ++ "x Type:" ++
    pos.position_type ++ " Entry price:" ++ fmtFixed 2 pos.entry_price

/-- `HyperliquidMonitor::check_contract_positions`. -/
def HyperliquidMonitor.check_contract_positions (m : HyperliquidMonitor)
    (pf : PosFetch) : HyperliquidMonitor × Except String (Option Change) :=
  if !m.monitor_contract then (m, .ok none)
  else
    match pf with
    | .err e => (m, .error e)
    | .ok positions =>
      let positions_hash := HyperliquidMonitor.calculate_positions_hash positions
      match m.last_positions_hash with
      | none =>
        let change : Change :=
          if positions.isEmpty then
            { message := "Started monitoring: " ++ m.notes
              details := "Started monitoring user: " ++ m.address ++
                "\n\nNo active positions currently\n\nView more information: @https://hyperdash.info/trader/" ++
                m.address ++ "\n\nNotes: " ++ m.notes }
          else
            { message := "Started monitoring: " ++ m.notes
              details := "User\x27s current positions:\n\n" ++
                (positionDetails positions).trim ++
                "\nView more information: @https://hyperdash.info/trader/" ++
                m.address ++ "\n\nNotes: " ++ m.notes }
        ({ m with last_positions_hash := some positions_hash }, .ok (some change))
      | some last_hash =>
        if last_hash ≠ positions_hash then
          let change : Change :=
            match positions with
            | [] =>
              { message := "No active positions - " ++ m.notes
                details := "User: " ++ m.address ++
                  "\n\nNo active positions currently\n\nView more information: @https://hyperdash.info/trader/" ++
                  m.address ++ "\n\nNotes: " ++ m.notes }
            | first_pos :: _ =>
              { message := m.notes ++ " - " ++ positionTitle first_pos
                details := "User position changes:\n\n" ++
                  (positionDetails positions).trim ++
                  "\nView more information: @https://hyperdash.info/trader/" ++
                  m.address ++ "\n\nNotes: " ++ m.notes }
          ({ m with last_positions_hash := some positions_hash }, .ok (some change))
        else (m, .ok none)

/-- `<HyperliquidMonitor as Monitor>::check`: spot sub-check first, then
contract positions; first `Some` wins. -/
def HyperliquidMonitor.check (m : HyperliquidMonitor) (sf : SpotFetch)
    (pf : PosFetch) : HyperliquidMonitor × Except String (Option Change) :=
  match m.check_spot_trades sf with
  | (m1, .error e) => (m1, .error e)
  | (m1, .ok (some change)) => (m1, .ok (some change))
  | (m1, .ok none) => m1.check_contract_positions pf

/-! ## Task supervisor (`src/gui.rs`) -/

/-- `enum TaskStatus`. -/
inductive TaskStatus where
  | Idle
  | Running
  | Error
deriving DecidableEq, Repr

/-- `enum TaskType`. -/
inductive TaskType where
  | Static
  | Hyperliquid
  | Api
deriving DecidableEq, Repr

/-- `impl Display for TaskType`. -/
def TaskType.display : TaskType → String
  | .Static => "Static Web"
  | .Hyperliquid => "Hyperliquid"
  | .Api => "API Monitor"

/-- `TaskType::from_str`. -/
def TaskType.from_str : String → Option TaskType
  | "Static Web" => some .Static
  | "Hyperliquid" => some .Hyperliquid
  | "API Monitor" => some .Api
  | _ => none

/-- `struct TaskConfig`. -/
structure TaskConfig where
  name : String
  task_type : String
  url : String
  selector : String
  address : String
  monitor_spot : Bool
  monitor_contract : Bool
  interval_secs : Nat
  enabled : Bool
  notes : String
deriving DecidableEq, Repr

/-- `impl Default for TaskConfig`. -/
def TaskConfig.default : TaskConfig :=
  { name := "New Task"
    task_type := "Static Web"
    url := "https://example.com"
    selector := ""
    address := ""
    monitor_spot := true
    monitor_contract := false
    interval_secs := 60
    enabled := true
    notes := "" }

/-- The `Box<dyn Monitor>` built by `start_task`. -/
inductive BuiltMonitor where
  | staticM (m : StaticMonitor)
  | apiM (m : ApiMonitor)
  | hyperM (m : HyperliquidMonitor)
deriving DecidableEq, Repr

/-- The `match task_config.task_type.as_str()` dispatch in `start_task`:
note it matches the raw strings `"Static"` / `"Api"` / `"Hyperliquid"`,
not the display names `TaskType.display` produces. -/
def buildMonitor (task_config : TaskConfig) : Option BuiltMonitor :=
  match task_config.task_type with
  | "Static" => some (.staticM (StaticMonitor.new_with_notes
      task_config.url task_config.selector task_config.interval_secs task_config.notes))
  | "Api" => some (.apiM (ApiMonitor.new_with_notes
      task_config.url task_config.selector task_config.interval_secs task_config.notes))
  | "Hyperliquid" => some (.hyperM (HyperliquidMonitor.new_with_notes
      task_config.address task_config.interval_secs task_config.monitor_spot
      task_config.monitor_contract task_config.notes))
  | _ => none

/-- The supervisor-relevant state of `MonitorApp`: the task list and its
two parallel per-task vectors, plus the log deque.  A `JoinHandle` is
modelled as `Unit` (only its presence matters).  Log entries drop the
wall-clock timestamp prefix and display colour (environment /
presentation data). -/
structure MonitorApp where
  tasks : List TaskConfig
  task_statuses : List TaskStatus
  task_handles : List (Option Unit)
  logs : List String
deriving DecidableEq, Repr

/-- `MAX_LOGS`. -/
def MAX_LOGS : Nat := 100

/-- `MonitorApp::add_log` on the log deque: pop the front when full,
push the message at the back. -/
def MonitorApp.addLog (logs : List String) (message : String) : List String :=
  (if MAX_LOGS ≤ logs.length then logs.drop 1 else logs) ++ [message]

/-- `vec[i] = x`: `some` of the updated list, or `none` when the write
would panic (index out of bounds). -/
def setAt? (l : List α) (i : Nat) (a : α) : Option (List α) :=
  if i < l.length then some (l.set i a) else none

/-- `Vec::remove(i)`: `some` of the shortened list, or `none` when the
removal would panic. -/
def eraseAt? (l : List α) (i : Nat) : Option (List α) :=
  if i < l.length then some (l.eraseIdx i) else none

/-- `MonitorApp::start_task`.  `none` models a panic (an indexing that
would be out of bounds).  Spawning the poll loop is modelled by writing
`some ()` into the handle slot; the config save and channel plumbing have
no supervisor-state effect. -/
def MonitorApp.start_task (app : MonitorApp) (task_index : Nat) : Option MonitorApp :=
  if h : task_index < app.tasks.length then
    match app.task_handles.get? task_index with
    | none => none
    | some old_handle =>
      let handles1 :=
        match old_handle with
        | some _ => app.task_handles.set task_index none
        | none => app.task_handles
      let task_config := app.tasks.get ⟨task_index, h⟩
      match setAt? app.task_statuses task_index TaskStatus.Running with
      | none => none
      | some statuses1 =>
        match buildMonitor task_config with
        | none =>
          some { app with
                 task_statuses := statuses1
                 task_handles := handles1
                 logs := MonitorApp.addLog app.logs
                   ("Unknown task type: " ++ task_config.task_type) }
        | some _ =>
          match setAt? handles1 task_index (some ()) with
          | none => none
          | some handles2 =>
            some { app with
                   task_statuses := statuses1
                   task_handles := handles2
                   logs := MonitorApp.addLog app.logs
                     ("Started task #" ++ toString (task_index + 1) ++ ": " ++
                       task_config.name) }
  else some app

/-- `MonitorApp::stop_task`. -/
def MonitorApp.stop_task (app : MonitorApp) (task_index : Nat) : Option MonitorApp :=
  if h : task_index < app.tasks.length then
    match app.task_handles.get? task_index with
    | none => none
    | some none => some app
    | some (some _) =>
      let handles1 := app.task_handles.set task_index none
      match setAt? app.task_statuses task_index TaskStatus.Idle with
      | none => none
      | some statuses1 =>
        some { app with
               task_handles := handles1
               task_statuses := statuses1
               logs := MonitorApp.addLog app.logs
                 ("Stopped task #" ++ toString (task_index + 1) ++ ": " ++
                   (app.tasks.get ⟨task_index, h⟩).name) }
  else some app

/-- `MonitorApp::delete_task` (returns the source's `bool`).  The config
save is external persistence with no supervisor-state effect. -/
def MonitorApp.delete_task (app : MonitorApp) (task_index : Nat) :
    Option (Bool × MonitorApp) :=
  if task_index < app.tasks.length then
    match app.stop_task task_index with
    | none => none
    | some app1 =>
      match app1.tasks.get? task_index with
      | none => none
      | some cfg =>
        let logs1 := MonitorApp.addLog app1.logs ("Deleted task: " ++ cfg.name)
        match eraseAt? app1.tasks task_index, eraseAt? app1.task_statuses task_index,
              eraseAt? app1.task_handles task_index with
        | some tasks2, some statuses2, some handles2 =>
          some (true, { tasks := tasks2, task_statuses := statuses2,
                        task_handles := handles2, logs := logs1 })
        | _, _, _ => none
  else some (false, app)

/-- `MonitorApp::add_task`, with the dialog's `editing_task` passed
explicitly. -/
def MonitorApp.add_task (app : MonitorApp) (editing_task : TaskConfig) : MonitorApp :=
  { tasks := app.tasks ++ [editing_task]
    task_statuses := app.task_statuses ++ [TaskStatus.Idle]
    task_handles := app.task_handles ++ [none]
    logs := MonitorApp.addLog app.logs ("Added new task: " ++ editing_task.name) }

/-- `MonitorApp::update_task`, with the dialog's `editing_task_index`
and `editing_task` passed explicitly. -/
def MonitorApp.update_task (app : MonitorApp) (editing_task_index : Option Nat)
    (editing_task : TaskConfig) : Option MonitorApp :=
  match editing_task_index with
  | none => some app
  | some idx =>
    if idx < app.tasks.length then
      match app.stop_task idx with
      | none => none
      | some app1 =>
        match setAt? app1.tasks idx editing_task with
        | none => none
        | some tasks1 =>
          some { app1 with
                 tasks := tasks1
                 logs := MonitorApp.addLog app1.logs
                   ("Updated task #" ++ toString (idx + 1) ++ ": " ++ editing_task.name) }
    else some app

/-- One supervisor operation, for stating the alignment invariant over
arbitrary operation sequences. -/
inductive SupOp where
  | add (cfg : TaskConfig)
  | update (idx : Option Nat) (cfg : TaskConfig)
  | delete (i : Nat)
  | start (i : Nat)
  | stop (i : Nat)
deriving DecidableEq, Repr

/-- Run one supervisor operation (`none` models a panic). -/
def runOp (app : MonitorApp) : SupOp → Option MonitorApp
  | .add cfg => some (app.add_task cfg)
  | .update idx cfg => app.update_task idx cfg
  | .delete i => (app.delete_task i).map Prod.snd
  | .start i => app.start_task i
  | .stop i => app.stop_task i

/-- Run a sequence of supervisor operations. -/
def runOps (app : MonitorApp) : List SupOp → Option MonitorApp
  | [] => some app
  | op :: rest =>
    match runOp app op with
    | none => none
    | some app1 => runOps app1 rest

/-- The three per-task vectors have equal length. -/
def MonitorApp.Aligned (app : MonitorApp) : Prop :=
  app.task_statuses.length = app.tasks.length ∧
    app.task_handles.length = app.tasks.length

/-! ## Derived notions used by the statements -/

/-- `s` begins with `pat` (Rust `str::starts_with`). -/
def strBeginsWith (s pat : String) : Bool := listIsPref pat.data s.data

/-- Whether a key outcome is the response-body-parse failure that makes
`send` return early. -/
def KeyOutcome.isBadBody : KeyOutcome → Bool
  | .badBody _ => true
  | _ => false

/-- The error strings `send`'s loop accumulates, assuming no `badBody`
outcome interrupts it. -/
def collectErrors : List (String × KeyOutcome) → List String
  | [] => []
  | (key, outcome) :: rest =>
    match outcome with
    | .sendErr e => keyErrorString key e :: collectErrors rest
    | .badBody _ => []
    | .code c message =>
      if c ≠ 0 then keyErrorString key message :: collectErrors rest
      else collectErrors rest

/-! ## Theorems -/

/-- A list is a `listIsPref`-prefix of itself followed by anything. -/
lemma listIsPref_append_self (p q : List Char) : listIsPref p (p ++ q) = true := by
  induction p with
  | nil => rfl
  | cons c cs ih => simp [listIsPref, ih]

/-- The spot sub-check never touches the positions-hash baseline. -/
lemma check_spot_trades_hash (m : HyperliquidMonitor) (sf : SpotFetch) :
    (m.check_spot_trades sf).1.last_positions_hash = m.last_positions_hash := by
  unfold HyperliquidMonitor.check_spot_trades
  repeat (first | rfl | split)

/-- C6: `HyperliquidMonitor::check` runs the spot-trade sub-check first
and returns its result as soon as it is an error or a `Some(Change)` —
so at most one Change per call, a spot-trade Change pre-empts that
cycle's position Change, and the positions baseline is left untouched in
that case (the position change is reported on a later cycle); only when
the spot sub-check yields `None` does the contract-position sub-check
run and decide the result. -/
theorem c6_priority (m : HyperliquidMonitor) (sf : SpotFetch) (pf : PosFetch) :
    (∀ c m1, m.check_spot_trades sf = (m1, .ok (some c)) →
      m.check sf pf = (m1, .ok (some c)) ∧
        m1.last_positions_hash = m.last_positions_hash) ∧
    (∀ m1, m.check_spot_trades sf = (m1, .ok none) →
      m.check sf pf = m1.check_contract_positions pf) ∧
    (∀ e m1, m.check_spot_trades sf = (m1, .error e) →
      m.check sf pf = (m1, .error e)) := by
  refine ⟨fun c m1 h => ⟨?_, ?_⟩, fun m1 h => ?_, fun e m1 h => ?_⟩
  · simp [HyperliquidMonitor.check, h]
  · have hp := check_spot_trades_hash m sf
    rw [h] at hp
    exact hp
  · simp [HyperliquidMonitor.check, h]
  · simp [HyperliquidMonitor.check, h]

/-- Witness for C6 at a concrete monitor: a new spot trade id and a
changed (empty) position list in the same cycle; the spot Change wins
and the stored positions hash is untouched. -/
theorem c6_priority_witness :
    HyperliquidMonitor.check
      { address := "a", interval_secs := 1, monitor_spot := true,
        monitor_contract := true, last_spot_trade_id := some "1",
        last_contract_trade_id := none, last_positions_hash := some ["h"],
        notes := "n" }
      (.trades [{ tid := some "2", asset := some "A", side := some "B",
                  px := some "3", sz := some "4", time := some 5 }])
      (.ok []) =
      ({ address := "a", interval_secs := 1, monitor_spot := true,
         monitor_contract := true, last_spot_trade_id := some "2",
         last_contract_trade_id := none, last_positions_hash := some ["h"],
         notes := "n" },
       .ok (some
         { message := "n - New A Buy: Asset:A, Price:3, Size:4, Time:5"
           details := "Changed content:\nUser: a\nAsset: A\nSide: Buy\nPrice: 3\nSize: 4\nTime: 5\nTransaction ID: 2\n\nPrevious transaction ID: 1\n\nNotes: n" })) := by
  exact ((c6_priority _ _ _).1 _ _ rfl).1

/-- C7: an `ApiMonitor` that previously extracted a value
(`last_value = Some`) and whose JSONPath now evaluates successfully to
zero matches returns `Ok(Some(Change))` announcing the extraction
failure — not `Err` — and leaves the state unchanged. -/
theorem c7_extraction_failed (m : ApiMonitor) (old : String)
    (h : m.last_value = some old) :
    m.check (.selected []) =
      (m, .ok (some
        { message := m.notes ++ " - Data extraction failed"
          details := "URL: " ++ m.url ++ "\nSelector: " ++ m.selector ++
            "\n\nThe JSONPath selector did not match any data after a previous successful match. The data structure may have changed." })) := by
  simp [ApiMonitor.check, h]

/-- Witness for C7 at a concrete monitor. -/
theorem c7_extraction_failed_witness :
    ApiMonitor.check
      { url := "u", selector := "$.a", last_value := some "v",
        interval_secs := 60, notes := "u" }
      (.selected []) =
      ({ url := "u", selector := "$.a", last_value := some "v",
         interval_secs := 60, notes := "u" },
       .ok (some
        { message := "u - Data extraction failed"
          details := "URL: u\nSelector: $.a\n\nThe JSONPath selector did not match any data after a previous successful match. The data structure may have changed." })) := by
  exact c7_extraction_failed _ "v" rfl

/-- C4 counterexample: on the first successful check the message is
`"start: <notes>"`, which does not begin with the notes string. -/
theorem c4_counterexample :
    (StaticMonitor.check ⟨"u", 60, none, "note"⟩ (.ok ⟨200, "hello"⟩)).2 =
      .ok (some { message := "start: note"
                  details := "Initial content length: 5 bytes" }) ∧
    strBeginsWith "start: note" "note" = false := by
  exact ⟨rfl, rfl⟩

/-- C4 (amended): the first successful check of a `StaticMonitor`
returns `Some(Change)` whose message is exactly `"start: "` followed by
the adapter's notes (so it begins with `"start: "`, not with the notes),
whose details report the captured byte length, and a second check that
fetches byte-identical content returns `Ok(None)` with the state
unchanged. -/
theorem c4_first_check (m : StaticMonitor) (r r2 : HttpResponse)
    (h : m.last_content = none) (hs : statusIsSuccess r.status = true)
    (hs2 : statusIsSuccess r2.status = true) (hb : r2.body = r.body) :
    m.check (.ok r) =
      ({ m with last_content := some r.body },
       .ok (some
         { message := "start: " ++ m.notes
           details := "Initial content length: " ++
             toString r.body.utf8ByteSize ++ " bytes" })) ∧
    strBeginsWith ("start: " ++ m.notes) "start: " = true ∧
    (m.check (.ok r)).1.check (.ok r2) = ((m.check (.ok r)).1, .ok none) := by
  have h1 : m.check (.ok r) =
      ({ m with last_content := some r.body },
       .ok (some
         { message := "start: " ++ m.notes
           details := "Initial content length: " ++
             toString r.body.utf8ByteSize ++ " bytes" })) := by
    simp [StaticMonitor.check, StaticMonitor.get_content, hs, h]
  refine ⟨h1, ?_, ?_⟩
  · rw [strBeginsWith, String.data_append]
    exact listIsPref_append_self _ _
  · rw [h1]
    simp [StaticMonitor.check, StaticMonitor.get_content, hs2, hb]

/-- Witness for C4 (amended) at a concrete monitor and fetches. -/
theorem c4_first_check_witness :
    StaticMonitor.check ⟨"u", 60, none, "note"⟩ (.ok ⟨200, "hello"⟩) =
      (⟨"u", 60, some "hello", "note"⟩,
       .ok (some { message := "start: note"
                   details := "Initial content length: 5 bytes" })) ∧
    strBeginsWith "start: note" "start: " = true ∧
    (StaticMonitor.check ⟨"u", 60, none, "note"⟩ (.ok ⟨200, "hello"⟩)).1.check
        (.ok ⟨201, "hello"⟩) =
      ((StaticMonitor.check ⟨"u", 60, none, "note"⟩ (.ok ⟨200, "hello"⟩)).1,
        .ok none) := by
  exact c4_first_check ⟨"u", 60, none, "note"⟩ ⟨200, "hello"⟩ ⟨201, "hello"⟩
    rfl rfl rfl rfl

/-- C8 counterexample: `StaticMonitor::new` takes its selector as
`_selector` and never stores it (`static_monitor.rs` line 24; the
struct, lines 9–20, has no selector field), and `get_content`
(lines 57–78) never consults one.  So two monitors configured with
different non-empty CSS selectors are identical states with identical
`check` behavior, the stored baseline is the full markup rather than a
selected fragment, and a second fetch whose markup differs only
*outside* the selected fragment (the `<title>` content is unchanged)
still produces a Change — the comparison is over the full page, not the
fragment. -/
theorem c8_counterexample :
    StaticMonitor.new "https://example.com" ".title" 60 =
      StaticMonitor.new "https://example.com" ".other" 60 ∧
    (StaticMonitor.new "https://example.com" ".title" 60).check
        (.ok ⟨200, "<html><title>T</title>a</html>"⟩) =
      (StaticMonitor.new "https://example.com" ".other" 60).check
        (.ok ⟨200, "<html><title>T</title>a</html>"⟩) ∧
    ((StaticMonitor.new "https://example.com" ".title" 60).check
        (.ok ⟨200, "<html><title>T</title>a</html>"⟩)).1.last_content =
      some "<html><title>T</title>a</html>" ∧
    extract_between "<html><title>T</title>a</html>" "<title>" "</title>" =
      extract_between "<html><title>T</title>b</html>" "<title>" "</title>" ∧
    ((StaticMonitor.new "https://example.com" ".title" 60).check
        (.ok ⟨200, "<html><title>T</title>a</html>"⟩)).1.check
        (.ok ⟨200, "<html><title>T</title>b</html>"⟩) =
      ({ url := "https://example.com", interval_secs := 60,
         last_content := some "<html><title>T</title>b</html>",
         notes := "https://example.com" },
       .ok (some
         { message := "https://example.com 内容长度相同，但内容已变化\n"
           details := "Changes:\n内容长度相同，但内容已变化\n\n\nCurrent content length: 30 bytes\n\nPrevious content length: 30 bytes" })) := by
  exact ⟨rfl, rfl, rfl, rfl, rfl⟩

/-- C8 (amended): `StaticMonitor` ignores its CSS selector argument
entirely — both constructors (`static_monitor.rs` lines 24 and 41)
discard it, so `check` behaves identically under any two selectors; a
successful fetch yields the full page markup (`get_content`, lines
57–78, applies no selection), and the baseline stored by a first check
is the full body regardless of any configured selector. -/
theorem c8_selector_ignored :
    (∀ url s1 s2 i, StaticMonitor.new url s1 i = StaticMonitor.new url s2 i) ∧
    (∀ url s1 s2 i n,
      StaticMonitor.new_with_notes url s1 i n = StaticMonitor.new_with_notes url s2 i n) ∧
    (∀ url s1 s2 i n net,
      (StaticMonitor.new_with_notes url s1 i n).check net =
        (StaticMonitor.new_with_notes url s2 i n).check net) ∧
    (∀ (m : StaticMonitor) (r : HttpResponse), statusIsSuccess r.status = true →
      m.get_content (.ok r) = .ok r.body) ∧
    (∀ (m : StaticMonitor) (r : HttpResponse), m.last_content = none →
      statusIsSuccess r.status = true →
      (m.check (.ok r)).1.last_content = some r.body) := by
  refine ⟨fun _ _ _ _ => rfl, fun _ _ _ _ _ => rfl, fun _ _ _ _ _ _ => rfl,
    fun m r hs => ?_, fun m r h hs => ?_⟩
  · simp [StaticMonitor.get_content, hs]
  · simp [StaticMonitor.check, StaticMonitor.get_content, hs, h]

/-- Witness for C8 (amended) at concrete inputs. -/
theorem c8_selector_ignored_witness :
    (StaticMonitor.new_with_notes "u" ".title" 60 "n").check (.ok ⟨200, "body"⟩) =
      (StaticMonitor.new_with_notes "u" ".other" 60 "n").check (.ok ⟨200, "body"⟩) ∧
    (StaticMonitor.new "u" ".title" 60).get_content (.ok ⟨200, "body"⟩) = .ok "body" ∧
    ((StaticMonitor.new "u" ".title" 60).check (.ok ⟨200, "body"⟩)).1.last_content =
      some "body" := by
  exact ⟨c8_selector_ignored.2.2.1 "u" ".title" ".other" 60 "n" (.ok ⟨200, "body"⟩),
         c8_selector_ignored.2.2.2.1 _ ⟨200, "body"⟩ rfl,
         c8_selector_ignored.2.2.2.2 _ ⟨200, "body"⟩ rfl rfl⟩

/-- C1 counterexample: `ApiMonitor::check` returns `Ok(Some(Change))` —
not `Err` — on a request failure, on a non-success HTTP status, and on a
JSON body that fails to parse. -/
theorem c1_counterexample :
    (ApiMonitor.new "http://x" "$.a" 60).check (.reqError "connection timed out") =
      (ApiMonitor.new "http://x" "$.a" 60,
       .ok (some { message := "API request failed: connection timed out"
                   details := "URL: http://x" })) ∧
    (ApiMonitor.new "http://x" "$.a" 60).check (.badStatus 500) =
      (ApiMonitor.new "http://x" "$.a" 60,
       .ok (some { message := "API returned status code 500"
                   details := "URL: http://x" })) ∧
    (ApiMonitor.new "http://x" "$.a" 60).check (.jsonError "expected value") =
      (ApiMonitor.new "http://x" "$.a" 60,
       .ok (some { message := "Failed to parse JSON response: expected value"
                   details := "URL: http://x" })) := by
  exact ⟨rfl, rfl, rfl⟩

/-- C1 (amended): `StaticMonitor` (and, by propagation, the
`HyperliquidMonitor` sub-checks) turn network failure or a bad status
into `Err` and never a Change; `ApiMonitor`, by contrast, reports
request failure, non-success status and JSON parse failure as
`Ok(Some(Change))`, returning `Err` only for a JSONPath evaluation
error. -/
theorem c1_error_semantics :
    (∀ (m : StaticMonitor) e, (m.check (.error e)).2 =
      .error ("Failed to get webpage content: " ++
        ("Failed to get webpage content: " ++ e))) ∧
    (∀ (m : StaticMonitor) (r : HttpResponse), statusIsSuccess r.status = false →
      (m.check (.ok r)).2 =
        .error ("Failed to get webpage content: " ++
          ("HTTP request failed, status code: " ++ toString r.status))) ∧
    (∀ (m : ApiMonitor) e, m.check (.reqError e) =
      (m, .ok (some { message := "API request failed: " ++ e
                      details := "URL: " ++ m.url }))) ∧
    (∀ (m : ApiMonitor) c, m.check (.badStatus c) =
      (m, .ok (some { message := "API returned status code " ++ toString c
                      details := "URL: " ++ m.url }))) ∧
    (∀ (m : ApiMonitor) e, m.check (.jsonError e) =
      (m, .ok (some { message := "Failed to parse JSON response: " ++ e
                      details := "URL: " ++ m.url }))) ∧
    (∀ (m : ApiMonitor) e, m.check (.selError e) =
      (m, .error ("JSONPath selector error: " ++ e))) ∧
    (∀ (m : HyperliquidMonitor) e pf, m.monitor_spot = true →
      m.check (.err e) pf = (m, .error e)) ∧
    (∀ (m : HyperliquidMonitor) e, m.monitor_contract = true →
      m.check_contract_positions (.err e) = (m, .error e)) := by
  refine ⟨fun m e => ?_, fun m r hs => ?_, fun _ _ => rfl, fun _ _ => rfl,
    fun _ _ => rfl, fun _ _ => rfl, fun m e pf hspot => ?_, fun m e hc => ?_⟩
  · simp [StaticMonitor.check, StaticMonitor.get_content]
  · simp [StaticMonitor.check, StaticMonitor.get_content, hs]
  · simp [HyperliquidMonitor.check, HyperliquidMonitor.check_spot_trades, hspot]
  · simp [HyperliquidMonitor.check_contract_positions, hc]

/-- Witness for C1 (amended) at concrete monitors. -/
theorem c1_error_semantics_witness :
    ((StaticMonitor.new "u" "" 60).check (.error "dns error")).2 =
      .error "Failed to get webpage content: Failed to get webpage content: dns error" ∧
    ((StaticMonitor.new "u" "" 60).check (.ok ⟨500, "x"⟩)).2 =
      .error "Failed to get webpage content: HTTP request failed, status code: 500" ∧
    (HyperliquidMonitor.new "a" 60 true true).check (.err "boom") (.ok []) =
      (HyperliquidMonitor.new "a" 60 true true, .error "boom") ∧
    (HyperliquidMonitor.new "a" 60 true true).check_contract_positions (.err "boom") =
      (HyperliquidMonitor.new "a" 60 true true, .error "boom") := by
  refine ⟨?_, ?_, ?_, ?_⟩
  · exact c1_error_semantics.1 _ "dns error"
  · exact c1_error_semantics.2.1 _ ⟨500, "x"⟩ rfl
  · exact c1_error_semantics.2.2.2.2.2.2.1 _ "boom" (.ok []) rfl
  · exact c1_error_semantics.2.2.2.2.2.2.2 _ "boom" rfl

/-- C2 counterexample: the fingerprint hashes positions in list order,
so a permutation of the position list changes the hashed stream — the
fingerprint is order-dependent, not order-independent. -/
theorem c2_counterexample :
    ([⟨"BTC", 1, "long", 1, 1, 1, 1, 0⟩, ⟨"ETH", 1, "short", 2, 2, 2, 2, 0⟩] :
        List PositionInfo).Perm
      [⟨"ETH", 1, "short", 2, 2, 2, 2, 0⟩, ⟨"BTC", 1, "long", 1, 1, 1, 1, 0⟩] ∧
    HyperliquidMonitor.calculate_positions_hash
        [⟨"BTC", 1, "long", 1, 1, 1, 1, 0⟩, ⟨"ETH", 1, "short", 2, 2, 2, 2, 0⟩] ≠
      HyperliquidMonitor.calculate_positions_hash
        [⟨"ETH", 1, "short", 2, 2, 2, 2, 0⟩, ⟨"BTC", 1, "long", 1, 1, 1, 1, 0⟩] := by
  constructor
  · decide
  · decide

/-- C2 (amended): for position lists of equal length, the fingerprint
(`calculate_positions_hash`) agrees exactly when the lists agree
positionally on the normalized key (asset, size rounded to 2 decimals,
entry price rounded to 2 decimals, direction).  In particular the same
list always fingerprints identically, and a difference in any
position's rounded field changes the fingerprint; permutations are not
respected (see the counterexample). -/
theorem c2_fingerprint (ps qs : List PositionInfo) (h : ps.length = qs.length) :
    (HyperliquidMonitor.calculate_positions_hash ps =
      HyperliquidMonitor.calculate_positions_hash qs) ↔
    ps.map positionKey = qs.map positionKey := by
  simp only [HyperliquidMonitor.calculate_positions_hash]
  induction ps generalizing qs with
  | nil =>
    cases qs with
    | nil => simp
    | cons b bs => simp at h
  | cons a as ih =>
    cases qs with
    | nil => simp at h
    | cons b bs =>
      have hlen : as.length = bs.length := by simpa using h
      simp only [positionHashTokens, positionKey, List.map_cons, List.cons.injEq,
        Prod.mk.injEq]
      rw [ih bs hlen]
      tauto

/-- Witness for C2 (amended): two singleton lists whose sizes differ in
the raw value but agree after rounding to 2 decimals fingerprint
identically. -/
theorem c2_fingerprint_witness :
    ([⟨"BTC", 1, "long", 1, 1, 1, 1, 0⟩] : List PositionInfo).length =
      ([⟨"BTC", 1, "long", 1, 1, 1001/1000, 1, 0⟩] : List PositionInfo).length ∧
    ((HyperliquidMonitor.calculate_positions_hash
        [⟨"BTC", 1, "long", 1, 1, 1, 1, 0⟩] =
      HyperliquidMonitor.calculate_positions_hash
        [⟨"BTC", 1, "long", 1, 1, 1001/1000, 1, 0⟩]) ↔
      ([⟨"BTC", 1, "long", 1, 1, 1, 1, 0⟩] : List PositionInfo).map positionKey =
        ([⟨"BTC", 1, "long", 1, 1, 1001/1000, 1, 0⟩] : List PositionInfo).map positionKey) := by
  exact ⟨rfl, c2_fingerprint _ _ rfl⟩

/-- A successful static check always leaves a stored baseline. -/
lemma static_check_ok_isSome (m : StaticMonitor) (net : Except String HttpResponse)
    (r : Option Change) (h : (m.check net).2 = .ok r) :
    ((m.check net).1.last_content).isSome = true := by
  cases hg : m.get_content net with
  | error e => simp [StaticMonitor.check, hg] at h
  | ok c =>
    cases hl : m.last_content with
    | none => simp [StaticMonitor.check, hg, hl]
    | some last =>
      by_cases hne : last = c
      · simp [StaticMonitor.check, hg, hl, hne]
      · simp [StaticMonitor.check, hg, hl, hne]

/-- A stored static baseline survives every later check. -/
lemma static_check_preserves_isSome (m : StaticMonitor)
    (net : Except String HttpResponse) (h : m.last_content.isSome = true) :
    ((m.check net).1.last_content).isSome = true := by
  obtain ⟨last, hlast⟩ := Option.isSome_iff_exists.mp h
  cases hg : m.get_content net with
  | error e => simp [StaticMonitor.check, hg, hlast]
  | ok c =>
    by_cases hne : last = c
    · simp [StaticMonitor.check, hg, hlast, hne]
    · simp [StaticMonitor.check, hg, hlast, hne]

/-- A nonempty JSONPath result always stores an API baseline. -/
lemma api_selected_isSome (m : ApiMonitor) (vals : List String) (hv : vals ≠ []) :
    ((m.check (.selected vals)).1.last_value).isSome = true := by
  match vals with
  | [] => exact absurd rfl hv
  | [r] =>
    cases hl : m.last_value with
    | none => simp [ApiMonitor.check, hl]
    | some old =>
      simp only [ApiMonitor.check, hl]
      split <;> simp
  | r1 :: r2 :: rest =>
    cases hl : m.last_value with
    | none => simp [ApiMonitor.check, hl]
    | some old =>
      simp only [ApiMonitor.check, hl]
      split <;> simp

/-- A stored API baseline survives every later check. -/
lemma api_check_preserves_isSome (m : ApiMonitor) (fetch : ApiFetchResult)
    (h : m.last_value.isSome = true) :
    ((m.check fetch).1.last_value).isSome = true := by
  obtain ⟨old, hold⟩ := Option.isSome_iff_exists.mp h
  cases fetch with
  | reqError e => simp [ApiMonitor.check, hold]
  | badStatus c => simp [ApiMonitor.check, hold]
  | jsonError e => simp [ApiMonitor.check, hold]
  | selError e => simp [ApiMonitor.check, hold]
  | selected vals =>
    cases vals with
    | nil => simp [ApiMonitor.check, hold]
    | cons a as => exact api_selected_isSome m (a :: as) (by simp)

/-- The spot sub-check never touches the `monitor_contract` flag. -/
lemma check_spot_trades_contract (m : HyperliquidMonitor) (sf : SpotFetch) :
    (m.check_spot_trades sf).1.monitor_contract = m.monitor_contract := by
  unfold HyperliquidMonitor.check_spot_trades
  repeat (first | rfl | split)

/-- A contract sub-check on a successful positions fetch always leaves a
stored positions-hash baseline. -/
lemma contract_ok_hash_isSome (m : HyperliquidMonitor) (ps : List PositionInfo)
    (hc : m.monitor_contract = true) :
    ((m.check_contract_positions (.ok ps)).1.last_positions_hash).isSome = true := by
  cases hl : m.last_positions_hash with
  | none => simp [HyperliquidMonitor.check_contract_positions, hc, hl]
  | some last =>
    simp only [HyperliquidMonitor.check_contract_positions, hc, hl,
      Bool.not_true, Bool.false_eq_true, if_false]
    split <;> simp [hl]

/-- A stored positions-hash baseline survives the contract sub-check. -/
lemma contract_hash_preserved (m : HyperliquidMonitor) (pf : PosFetch)
    (h : m.last_positions_hash.isSome = true) :
    ((m.check_contract_positions pf).1.last_positions_hash).isSome = true := by
  cases hc : m.monitor_contract with
  | false => simpa [HyperliquidMonitor.check_contract_positions, hc] using h
  | true =>
    cases pf with
    | err e => simpa [HyperliquidMonitor.check_contract_positions, hc] using h
    | ok ps => exact contract_ok_hash_isSome m ps hc

/-- A stored positions-hash baseline survives the whole Hyperliquid
check. -/
lemma hyper_check_preserves_isSome (m : HyperliquidMonitor) (sf : SpotFetch)
    (pf : PosFetch) (h : m.last_positions_hash.isSome = true) :
    ((m.check sf pf).1.last_positions_hash).isSome = true := by
  have hsp := check_spot_trades_hash m sf
  rcases hs : m.check_spot_trades sf with ⟨m1, r1⟩
  rw [hs] at hsp
  have hm1 : m1.last_positions_hash.isSome = true := by rw [hsp]; exact h
  cases r1 with
  | error e => simpa [HyperliquidMonitor.check, hs] using hm1
  | ok oc =>
    cases oc with
    | some c => simpa [HyperliquidMonitor.check, hs] using hm1
    | none =>
      have : m.check sf pf = m1.check_contract_positions pf := by
        simp [HyperliquidMonitor.check, hs]
      rw [this]
      exact contract_hash_preserved m1 pf hm1

/-- C5 counterexample: the very first check of an `ApiMonitor`'s
lifetime can return `Ok` (a request failure is reported as
`Ok(Some(Change))`) while the baseline `last_value` stays `None` — so
the baseline is not established on the first check that returns `Ok`. -/
theorem c5_counterexample :
    ((ApiMonitor.new "http://x" "$.a" 60).check (.reqError "timeout")).2 =
      .ok (some { message := "API request failed: timeout"
                  details := "URL: http://x" }) ∧
    ((ApiMonitor.new "http://x" "$.a" 60).check (.reqError "timeout")).1.last_value =
      none := by
  exact ⟨rfl, rfl⟩

/-- C5 (amended): each adapter's baseline becomes `Some` on the first
check in which its own fetch-and-extract actually succeeds — for
`StaticMonitor` that coincides with the first check returning `Ok`, for
`ApiMonitor` it is the first check whose JSONPath extraction yields a
nonempty result, for `HyperliquidMonitor` the first check in which the
contract sub-check runs on a successful positions fetch — and once a
baseline is `Some` it is never `None` again after any later check until
the adapter is rebuilt. -/
theorem c5_baseline :
    (∀ (m : StaticMonitor) net r, (m.check net).2 = .ok r →
      ((m.check net).1.last_content).isSome = true) ∧
    (∀ (m : StaticMonitor) net, m.last_content.isSome = true →
      ((m.check net).1.last_content).isSome = true) ∧
    (∀ (m : ApiMonitor) vals, vals ≠ [] →
      ((m.check (.selected vals)).1.last_value).isSome = true) ∧
    (∀ (m : ApiMonitor) fetch, m.last_value.isSome = true →
      ((m.check fetch).1.last_value).isSome = true) ∧
    (∀ (m : HyperliquidMonitor) sf ps m1, m.monitor_contract = true →
      m.check_spot_trades sf = (m1, .ok none) →
      ((m.check sf (.ok ps)).1.last_positions_hash).isSome = true) ∧
    (∀ (m : HyperliquidMonitor) sf pf, m.last_positions_hash.isSome = true →
      ((m.check sf pf).1.last_positions_hash).isSome = true) := by
  refine ⟨static_check_ok_isSome, static_check_preserves_isSome,
    api_selected_isSome, api_check_preserves_isSome,
    fun m sf ps m1 hc hs => ?_, hyper_check_preserves_isSome⟩
  have hceq := check_spot_trades_contract m sf
  rw [hs] at hceq
  have : m.check sf (.ok ps) = m1.check_contract_positions (.ok ps) := by
    simp [HyperliquidMonitor.check, hs]
  rw [this]
  exact contract_ok_hash_isSome m1 ps (hceq.trans hc)

/-- Witness for C5 (amended) at concrete adapters. -/
theorem c5_baseline_witness :
    (((⟨"u", 60, none, "u"⟩ : StaticMonitor).check (.ok ⟨200, "b"⟩)).1.last_content).isSome = true ∧
    (((⟨"u", 60, some "x", "u"⟩ : StaticMonitor).check (.error "e")).1.last_content).isSome = true ∧
    (((ApiMonitor.new "u" "s" 60).check (.selected ["1"])).1.last_value).isSome = true ∧
    (((HyperliquidMonitor.new "a" 60 false true).check (.trades []) (.ok [])).1.last_positions_hash).isSome = true ∧
    ((({ HyperliquidMonitor.new "a" 60 true true with
          last_positions_hash := some ["h"] } : HyperliquidMonitor).check
        (.err "boom") (.ok [])).1.last_positions_hash).isSome = true := by
  refine ⟨?_, ?_, ?_, ?_, ?_⟩
  · exact c5_baseline.1 _ (.ok ⟨200, "b"⟩)
      (some { message := "start: u", details := "Initial content length: 1 bytes" }) rfl
  · exact c5_baseline.2.1 _ (.error "e") rfl
  · exact c5_baseline.2.2.1 _ ["1"] (by simp)
  · exact c5_baseline.2.2.2.2.1 _ (.trades []) [] _ rfl rfl
  · exact c5_baseline.2.2.2.2.2 _ (.err "boom") (.ok []) rfl

/-- A `listIsPref`-prefix of `a` is a prefix of `a ++ b`. -/
lemma listIsPref_extend (p a b : List Char) (h : listIsPref p a = true) :
    listIsPref p (a ++ b) = true := by
  induction p generalizing a with
  | nil => rfl
  | cons c cs ih =>
    cases a with
    | nil => simp [listIsPref] at h
    | cons x xs =>
      simp only [listIsPref, Bool.and_eq_true] at h ⊢
      exact ⟨h.1, ih xs h.2⟩

/-- A substring of `a` is a substring of `a ++ b`. -/
lemma listHasSub_append_right (pat a b : List Char) (h : listHasSub pat a = true) :
    listHasSub pat (a ++ b) = true := by
  induction a with
  | nil =>
    simp only [listHasSub, List.isEmpty_eq_true] at h
    subst h
    cases b with
    | nil => rfl
    | cons c cs => simp [listHasSub, listIsPref]
  | cons c cs ih =>
    simp only [listHasSub, Bool.or_eq_true, List.cons_append] at h ⊢
    cases h with
    | inl hp => exact Or.inl (listIsPref_extend pat (c :: cs) b hp)
    | inr hs => exact Or.inr (ih hs)

/-- A substring of `b` is a substring of `a ++ b`. -/
lemma listHasSub_append_left (pat a b : List Char) (h : listHasSub pat b = true) :
    listHasSub pat (a ++ b) = true := by
  induction a with
  | nil => exact h
  | cons c cs ih => simp only [List.cons_append, listHasSub, Bool.or_eq_true]; exact Or.inr ih

/-- Every list is a substring of itself followed by anything. -/
lemma listHasSub_pref (p q : List Char) : listHasSub p (p ++ q) = true := by
  cases p with
  | nil =>
    cases q with
    | nil => rfl
    | cons c cs => simp [listHasSub, listIsPref]
  | cons c cs =>
    simp only [List.cons_append, listHasSub, Bool.or_eq_true]
    exact Or.inl (by simp [listIsPref, listIsPref_append_self])

/-- The per-key error string mentions the key. -/
lemma key_in_keyErrorString (k reason : String) :
    strContainsStr (keyErrorString k reason) k = true := by
  unfold keyErrorString strContainsStr
  rw [String.data_append, String.data_append, String.data_append,
    List.append_assoc, List.append_assoc]
  exact listHasSub_append_left _ _ _ (listHasSub_pref _ _)

/-- Joining error strings with `"; "` preserves key mentions. -/
lemma mem_joinSemicolon (errors : List String) (e k : String) (hmem : e ∈ errors)
    (hk : strContainsStr e k = true) :
    strContainsStr (joinSemicolon errors) k = true := by
  induction errors with
  | nil => simp at hmem
  | cons x rest ih =>
    cases rest with
    | nil =>
      rw [List.mem_singleton] at hmem
      subst hmem
      exact hk
    | cons y t =>
      rcases List.mem_cons.mp hmem with hex | hmem2
      · subst hex
        unfold joinSemicolon strContainsStr
        rw [String.data_append, String.data_append, List.append_assoc]
        exact listHasSub_append_right _ _ _ hk
      · unfold joinSemicolon strContainsStr
        rw [String.data_append, String.data_append, List.append_assoc]
        exact listHasSub_append_left _ _ _
          (listHasSub_append_left _ _ _ (ih hmem2))

/-- Without a `badBody` outcome, the send loop runs to completion and
returns the accumulated error list. -/
lemma sendLoop_eq (outs : List (String × KeyOutcome))
    (h : ∀ p ∈ outs, p.2.isBadBody = false) (acc : List String) :
    sendLoop acc outs = .ok (acc ++ collectErrors outs) := by
  induction outs generalizing acc with
  | nil => simp [sendLoop, collectErrors]
  | cons p rest ih =>
    obtain ⟨k, o⟩ := p
    have hrest : ∀ q ∈ rest, q.2.isBadBody = false :=
      fun q hq => h q (List.mem_cons_of_mem _ hq)
    cases o with
    | sendErr e => simp [sendLoop, collectErrors, ih hrest, List.append_assoc]
    | badBody e =>
      have := h (k, .badBody e) (List.mem_cons_self _ _)
      simp [KeyOutcome.isBadBody] at this
    | code c msg =>
      by_cases hc : c = 0 <;>
        simp [sendLoop, collectErrors, hc, ih hrest, List.append_assoc]

/-- Without a `badBody` outcome, the error list is empty exactly when
every key succeeded. -/
lemma collectErrors_nil_iff (outs : List (String × KeyOutcome))
    (h : ∀ p ∈ outs, p.2.isBadBody = false) :
    collectErrors outs = [] ↔ ∀ p ∈ outs, p.2.succeeds = true := by
  induction outs with
  | nil => simp [collectErrors]
  | cons p rest ih =>
    obtain ⟨k, o⟩ := p
    have hrest : ∀ q ∈ rest, q.2.isBadBody = false :=
      fun q hq => h q (List.mem_cons_of_mem _ hq)
    cases o with
    | sendErr e => simp [collectErrors, KeyOutcome.succeeds]
    | badBody e =>
      have := h (k, .badBody e) (List.mem_cons_self _ _)
      simp [KeyOutcome.isBadBody] at this
    | code c msg =>
      by_cases hc : c = 0
      · subst hc
        simp [collectErrors, KeyOutcome.succeeds, ih hrest]
      · have hs : KeyOutcome.succeeds (.code c msg) = false := by
          cases c with
          | ofNat n => cases n with
            | zero => exact absurd rfl hc
            | succ k => rfl
          | negSucc n => rfl
        simp [collectErrors, hc, hs]

/-- A failing key contributes an error entry that mentions it. -/
lemma mem_collectErrors (outs : List (String × KeyOutcome)) (k : String)
    (o : KeyOutcome) (hnb : ∀ p ∈ outs, p.2.isBadBody = false)
    (hmem : (k, o) ∈ outs) (hfail : o.succeeds = false) :
    ∃ e ∈ collectErrors outs, strContainsStr e k = true := by
  induction outs with
  | nil => simp at hmem
  | cons p rest ih =>
    obtain ⟨k', o'⟩ := p
    have hrest : ∀ q ∈ rest, q.2.isBadBody = false :=
      fun q hq => hnb q (List.mem_cons_of_mem _ hq)
    rcases List.mem_cons.mp hmem with heq | hmem2
    · obtain ⟨hk, ho⟩ := Prod.mk.injEq .. ▸ heq
      subst hk
      subst ho
      cases o with
      | sendErr e =>
        exact ⟨keyErrorString k e, by simp [collectErrors], key_in_keyErrorString k e⟩
      | badBody e =>
        have := hnb (k, .badBody e) (List.mem_cons_self _ _)
        simp [KeyOutcome.isBadBody] at this
      | code c msg =>
        have hc : c ≠ 0 := by
          intro hc0
          subst hc0
          simp [KeyOutcome.succeeds] at hfail
        exact ⟨keyErrorString k msg, by simp [collectErrors, hc],
          key_in_keyErrorString k msg⟩
    · obtain ⟨e, he, hek⟩ := ih hrest hmem2
      cases o' with
      | sendErr e' => exact ⟨e, by simp [collectErrors, he], hek⟩
      | badBody e' =>
        have := hnb (k', .badBody e') (List.mem_cons_self _ _)
        simp [KeyOutcome.isBadBody] at this
      | code c msg =>
        by_cases hc : c = 0
        · exact ⟨e, by simp [collectErrors, hc, he], hek⟩
        · exact ⟨e, by simp [collectErrors, hc, he], hek⟩

/-- Without a `badBody` outcome, every key in the set is attempted. -/
lemma attemptedKeys_eq (outs : List (String × KeyOutcome))
    (h : ∀ p ∈ outs, p.2.isBadBody = false) :
    attemptedKeys outs = outs.map Prod.fst := by
  induction outs with
  | nil => rfl
  | cons p rest ih =>
    obtain ⟨k, o⟩ := p
    have hrest : ∀ q ∈ rest, q.2.isBadBody = false :=
      fun q hq => h q (List.mem_cons_of_mem _ hq)
    cases o with
    | sendErr e => simp [attemptedKeys, ih hrest]
    | badBody e =>
      have := h (k, .badBody e) (List.mem_cons_self _ _)
      simp [KeyOutcome.isBadBody] at this
    | code c msg => simp [attemptedKeys, ih hrest]

/-- C3 counterexample: when the one failing key fails by returning an
unparsable response body, `send` aborts immediately (the second key is
never attempted) and the error does not mention the failing key. -/
theorem c3_counterexample :
    ServerChanNotifier.send [("k1", .badBody "boom"), ("k2", .code 0 "ok")] =
      .error "Failed to parse response: boom" ∧
    attemptedKeys [("k1", .badBody "boom"), ("k2", .code 0 "ok")] = ["k1"] ∧
    strContainsStr "Failed to parse response: boom" "k1" = false := by
  exact ⟨rfl, rfl, by decide⟩

/-- C3 (amended): provided no key's response body fails JSON parsing, a
fanout `send` attempts delivery to every registered key (no
short-circuit on transport failures or non-zero response codes), returns
`Ok` exactly when every key succeeds, and on any per-key failure returns
one aggregated error that mentions the failing key.  A response body
that fails to parse, however, aborts the loop at that key with an error
that does not name it (see the counterexample). -/
theorem c3_fanout (outs : List (String × KeyOutcome)) (hne : outs ≠ [])
    (hnb : ∀ p ∈ outs, p.2.isBadBody = false) :
    attemptedKeys outs = outs.map Prod.fst ∧
    (ServerChanNotifier.send outs = .ok () ↔ ∀ p ∈ outs, p.2.succeeds = true) ∧
    (∀ k o, (k, o) ∈ outs → o.succeeds = false →
      ∃ msg, ServerChanNotifier.send outs = .error msg ∧
        strContainsStr msg k = true) := by
  have hic : outs.isEmpty = false := by
    cases outs with
    | nil => exact absurd rfl hne
    | cons p rest => rfl
  have hloop := sendLoop_eq outs hnb []
  have hiff := collectErrors_nil_iff outs hnb
  have hsend : ServerChanNotifier.send outs =
      (if (collectErrors outs).isEmpty then .ok ()
       else .error ("Some notifications failed: " ++
         joinSemicolon (collectErrors outs))) := by
    simp [ServerChanNotifier.send, hic, hloop]
  refine ⟨attemptedKeys_eq outs hnb, ?_, ?_⟩
  · rw [hsend]
    by_cases hc : collectErrors outs = []
    · rw [hc]
      exact ⟨fun _ => hiff.mp hc, fun _ => rfl⟩
    · have hie : (collectErrors outs).isEmpty = false := by
        cases h' : collectErrors outs with
        | nil => exact absurd h' hc
        | cons a as => rfl
      rw [hie]
      constructor
      · intro h
        exact absurd h (by simp)
      · intro hall
        exact absurd (hiff.mpr hall) hc
  · intro k o hmem hfail
    obtain ⟨e, he, hek⟩ := mem_collectErrors outs k o hnb hmem hfail
    have hc : collectErrors outs ≠ [] := by
      intro hnil
      rw [hnil] at he
      simp at he
    have hie : (collectErrors outs).isEmpty = false := by
      cases h' : collectErrors outs with
      | nil => exact absurd h' hc
      | cons a as => rfl
    refine ⟨"Some notifications failed: " ++ joinSemicolon (collectErrors outs), ?_, ?_⟩
    · simp [ServerChanNotifier.send, hic, hloop, hie]
    · unfold strContainsStr
      rw [String.data_append]
      exact listHasSub_append_left _ _ _ (mem_joinSemicolon _ e k he hek)

/-- Witness for C3 (amended): two keys, the first failing with a
transport error — both keys are attempted and the aggregated error
names the failing key. -/
theorem c3_fanout_witness :
    attemptedKeys [("k1", KeyOutcome.sendErr "conn"), ("k2", KeyOutcome.code 0 "ok")] =
      ["k1", "k2"] ∧
    ServerChanNotifier.send
        [("k1", KeyOutcome.sendErr "conn"), ("k2", KeyOutcome.code 0 "ok")] =
      .error "Some notifications failed: Failed to send notification to key k1: conn" ∧
    strContainsStr
        "Some notifications failed: Failed to send notification to key k1: conn"
        "k1" = true := by
  exact ⟨(c3_fanout _ (by decide) (by decide)).1, rfl, by decide⟩


/-- `start_task` from an aligned state never panics and stays aligned. -/
lemma start_task_aligned (app : MonitorApp) (i : Nat) (h : app.Aligned) :
    ∃ app', app.start_task i = some app' ∧ app'.Aligned := by
  obtain ⟨hs, hh⟩ := h
  by_cases hi : i < app.tasks.length
  · have hih : i < app.task_handles.length := by omega
    have his : i < app.task_statuses.length := by omega
    have hget : app.task_handles[i]? = some app.task_handles[i] :=
      List.getElem?_eq_getElem hih
    cases hold : app.task_handles[i] with
    | none =>
      cases hbm : buildMonitor app.tasks[i] with
      | none =>
        refine ⟨{ app with
            task_statuses := app.task_statuses.set i .Running
            task_handles := app.task_handles
            logs := MonitorApp.addLog app.logs
              ("Unknown task type: " ++ app.tasks[i].task_type) },
          ?_, ?_, ?_⟩
        · simp [MonitorApp.start_task, hi, hget, hold, hbm, setAt?, his]
        · simp [List.length_set, hs]
        · simpa using hh
      | some b =>
        refine ⟨{ app with
            task_statuses := app.task_statuses.set i .Running
            task_handles := app.task_handles.set i (some ())
            logs := MonitorApp.addLog app.logs
              ("Started task #" ++ toString (i + 1) ++ ": " ++ app.tasks[i].name) },
          ?_, ?_, ?_⟩
        · simp [MonitorApp.start_task, hi, hget, hold, hbm, setAt?, his, hih]
        · simp [List.length_set, hs]
        · simp [List.length_set, hh]
    | some u =>
      cases hbm : buildMonitor app.tasks[i] with
      | none =>
        refine ⟨{ app with
            task_statuses := app.task_statuses.set i .Running
            task_handles := app.task_handles.set i none
            logs := MonitorApp.addLog app.logs
              ("Unknown task type: " ++ app.tasks[i].task_type) },
          ?_, ?_, ?_⟩
        · simp [MonitorApp.start_task, hi, hget, hold, hbm, setAt?, his]
        · simp [List.length_set, hs]
        · simp [List.length_set, hh]
      | some b =>
        refine ⟨{ app with
            task_statuses := app.task_statuses.set i .Running
            task_handles := (app.task_handles.set i none).set i (some ())
            logs := MonitorApp.addLog app.logs
              ("Started task #" ++ toString (i + 1) ++ ": " ++ app.tasks[i].name) },
          ?_, ?_, ?_⟩
        · simp [MonitorApp.start_task, hi, hget, hold, hbm, setAt?, his, hih,
            List.length_set]
        · simp [List.length_set, hs]
        · simp [List.length_set, hh]
  · exact ⟨app, by simp [MonitorApp.start_task, hi], hs, hh⟩

/-- `stop_task` from an aligned state never panics, stays aligned, and
leaves the task list untouched. -/
lemma stop_task_spec (app : MonitorApp) (i : Nat) (h : app.Aligned) :
    ∃ app', app.stop_task i = some app' ∧ app'.Aligned ∧ app'.tasks = app.tasks := by
  obtain ⟨hs, hh⟩ := h
  by_cases hi : i < app.tasks.length
  · have hih : i < app.task_handles.length := by omega
    have his : i < app.task_statuses.length := by omega
    have hget : app.task_handles[i]? = some app.task_handles[i] :=
      List.getElem?_eq_getElem hih
    cases hold : app.task_handles[i] with
    | none =>
      exact ⟨app, by simp [MonitorApp.stop_task, hi, hget, hold], ⟨hs, hh⟩, rfl⟩
    | some u =>
      refine ⟨{ app with
          task_handles := app.task_handles.set i none
          task_statuses := app.task_statuses.set i .Idle
          logs := MonitorApp.addLog app.logs
            ("Stopped task #" ++ toString (i + 1) ++ ": " ++ app.tasks[i].name) },
        ?_, ⟨?_, ?_⟩, rfl⟩
      · simp [MonitorApp.stop_task, hi, hget, hold, setAt?, his]
      · simp [List.length_set, hs]
      · simp [List.length_set, hh]
  · exact ⟨app, by simp [MonitorApp.stop_task, hi], ⟨hs, hh⟩, rfl⟩

/-- `delete_task` from an aligned state never panics and stays aligned. -/
lemma delete_task_aligned (app : MonitorApp) (i : Nat) (h : app.Aligned) :
    ∃ r, app.delete_task i = some r ∧ r.2.Aligned := by
  by_cases hi : i < app.tasks.length
  · obtain ⟨app1, hstop, ⟨hs1, hh1⟩, htasks⟩ := stop_task_spec app i h
    have hi1 : i < app1.tasks.length := by rw [htasks]; exact hi
    have his1 : i < app1.task_statuses.length := by omega
    have hih1 : i < app1.task_handles.length := by omega
    have hget : app1.tasks[i]? = some app1.tasks[i] := List.getElem?_eq_getElem hi1
    refine ⟨(true,
      { tasks := app1.tasks.eraseIdx i
        task_statuses := app1.task_statuses.eraseIdx i
        task_handles := app1.task_handles.eraseIdx i
        logs := MonitorApp.addLog app1.logs
          ("Deleted task: " ++ app1.tasks[i].name) }), ?_, ?_, ?_⟩
    · simp [MonitorApp.delete_task, hi, hstop, hget, eraseAt?, hi1, his1, hih1]
    · simp [List.length_eraseIdx, hi1, his1, hs1]
    · simp [List.length_eraseIdx, hi1, hih1, hh1]
  · exact ⟨(false, app), by simp [MonitorApp.delete_task, hi], h⟩

/-- `update_task` from an aligned state never panics and stays aligned. -/
lemma update_task_aligned (app : MonitorApp) (idx : Option Nat) (cfg : TaskConfig)
    (h : app.Aligned) :
    ∃ app', app.update_task idx cfg = some app' ∧ app'.Aligned := by
  cases idx with
  | none => exact ⟨app, rfl, h⟩
  | some i =>
    by_cases hi : i < app.tasks.length
    · obtain ⟨app1, hstop, ⟨hs1, hh1⟩, htasks⟩ := stop_task_spec app i h
      have hi1 : i < app1.tasks.length := by rw [htasks]; exact hi
      refine ⟨{ app1 with
          tasks := app1.tasks.set i cfg
          logs := MonitorApp.addLog app1.logs
            ("Updated task #" ++ toString (i + 1) ++ ": " ++ cfg.name) },
        ?_, ?_, ?_⟩
      · simp [MonitorApp.update_task, hi, hstop, setAt?, hi1]
      · simp [List.length_set, hs1]
      · simp [List.length_set, hh1]
    · exact ⟨app, by simp [MonitorApp.update_task, hi], h⟩

/-- `add_task` stays aligned. -/
lemma add_task_aligned (app : MonitorApp) (cfg : TaskConfig) (h : app.Aligned) :
    (app.add_task cfg).Aligned := by
  obtain ⟨hs, hh⟩ := h
  exact ⟨by simp [MonitorApp.add_task, hs], by simp [MonitorApp.add_task, hh]⟩

/-- Any single supervisor operation from an aligned state never panics
and stays aligned. -/
lemma runOp_aligned (app : MonitorApp) (op : SupOp) (h : app.Aligned) :
    ∃ app', runOp app op = some app' ∧ app'.Aligned := by
  cases op with
  | add cfg => exact ⟨app.add_task cfg, rfl, add_task_aligned app cfg h⟩
  | update idx cfg => exact update_task_aligned app idx cfg h
  | delete i =>
    obtain ⟨r, hr, ha⟩ := delete_task_aligned app i h
    exact ⟨r.2, by simp [runOp, hr], ha⟩
  | start i => exact start_task_aligned app i h
  | stop i =>
    obtain ⟨app', hr, ha, _⟩ := stop_task_spec app i h
    exact ⟨app', hr, ha⟩

/-- C9: from an index-aligned supervisor state, any sequence of
`add_task` / `update_task` / `delete_task` / `start_task` / `stop_task`
operations runs without panicking and keeps the three per-task vectors
(`configs.tasks`, `task_statuses`, `task_handles`) equal-length and
index-aligned; and calling `start_task`, `stop_task` or `delete_task`
with an out-of-range index leaves the state completely unchanged. -/
theorem c9_supervisor (app : MonitorApp) (ops : List SupOp) (i : Nat)
    (h : app.Aligned) :
    (∃ app', runOps app ops = some app' ∧ app'.Aligned) ∧
    (app.tasks.length ≤ i →
      app.start_task i = some app ∧ app.stop_task i = some app ∧
        app.delete_task i = some (false, app)) := by
  constructor
  · induction ops generalizing app with
    | nil => exact ⟨app, rfl, h⟩
    | cons op rest ih =>
      obtain ⟨app1, hop, ha1⟩ := runOp_aligned app op h
      obtain ⟨app2, hrest, ha2⟩ := ih app1 ha1
      exact ⟨app2, by simp [runOps, hop, hrest], ha2⟩
  · intro hle
    have hi : ¬ i < app.tasks.length := by omega
    exact ⟨by simp [MonitorApp.start_task, hi],
      by simp [MonitorApp.stop_task, hi],
      by simp [MonitorApp.delete_task, hi]⟩

/-- Witness for C9 at a concrete aligned state and out-of-range index. -/
theorem c9_supervisor_witness :
    MonitorApp.start_task ⟨[TaskConfig.default], [.Idle], [none], []⟩ 7 =
      some ⟨[TaskConfig.default], [.Idle], [none], []⟩ ∧
    MonitorApp.stop_task ⟨[TaskConfig.default], [.Idle], [none], []⟩ 7 =
      some ⟨[TaskConfig.default], [.Idle], [none], []⟩ ∧
    MonitorApp.delete_task ⟨[TaskConfig.default], [.Idle], [none], []⟩ 7 =
      some (false, ⟨[TaskConfig.default], [.Idle], [none], []⟩) := by
  exact (c9_supervisor ⟨[TaskConfig.default], [.Idle], [none], []⟩
    [.add TaskConfig.default, .start 0, .stop 0, .delete 0] 7
    ⟨rfl, rfl⟩).2 (by simp)

/-- C10: `start_task` on an in-range task whose `task_type` string is
not one of the dispatch strings `"Static"` / `"Api"` / `"Hyperliquid"`
spawns nothing (the handle slot ends up `None`), logs
`"Unknown task type: …"` as the newest log entry, and yet has already
set — and leaves — the task's status to `Running`; the GUI's own default
and display names `"Static Web"` and `"API Monitor"` are exactly such
strings, while `TaskType::from_str` accepts them. -/
theorem c10_unknown_task_type :
    (∀ (app : MonitorApp) (i : Nat), app.Aligned →
      ∀ (hi : i < app.tasks.length), buildMonitor app.tasks[i] = none →
      ∃ app', app.start_task i = some app' ∧
        app'.task_statuses[i]? = some TaskStatus.Running ∧
        app'.task_handles[i]? = some none ∧
        app'.logs.getLast? = some ("Unknown task type: " ++ app.tasks[i].task_type) ∧
        app'.tasks = app.tasks) ∧
    TaskConfig.default.task_type = "Static Web" ∧
    buildMonitor TaskConfig.default = none ∧
    buildMonitor { TaskConfig.default with task_type := "API Monitor" } = none ∧
    TaskType.from_str "Static Web" = some TaskType.Static ∧
    TaskType.from_str "API Monitor" = some TaskType.Api ∧
    TaskType.display TaskType.Static = "Static Web" ∧
    TaskType.display TaskType.Api = "API Monitor" := by
  refine ⟨?_, rfl, rfl, rfl, rfl, rfl, rfl, rfl⟩
  intro app i h hi hunk
  obtain ⟨hs, hh⟩ := h
  have hih : i < app.task_handles.length := by omega
  have his : i < app.task_statuses.length := by omega
  have hget : app.task_handles[i]? = some app.task_handles[i] :=
    List.getElem?_eq_getElem hih
  cases hold : app.task_handles[i] with
  | none =>
    refine ⟨{ app with
        task_statuses := app.task_statuses.set i .Running
        task_handles := app.task_handles
        logs := MonitorApp.addLog app.logs
          ("Unknown task type: " ++ app.tasks[i].task_type) },
      ?_, ?_, ?_, ?_, rfl⟩
    · simp [MonitorApp.start_task, hi, hget, hold, hunk, setAt?, his]
    · simp [List.getElem?_set_self, his]
    · rw [hget, hold]
    · simp [MonitorApp.addLog]
  | some u =>
    refine ⟨{ app with
        task_statuses := app.task_statuses.set i .Running
        task_handles := app.task_handles.set i none
        logs := MonitorApp.addLog app.logs
          ("Unknown task type: " ++ app.tasks[i].task_type) },
      ?_, ?_, ?_, ?_, rfl⟩
    · simp [MonitorApp.start_task, hi, hget, hold, hunk, setAt?, his]
    · simp [List.getElem?_set_self, his]
    · simp [List.getElem?_set_self, hih]
    · simp [MonitorApp.addLog]

/-- Witness for C10: starting the GUI's default task (whose type string
is the display name `"Static Web"`) marks it `Running`, clears the
handle slot (no poll loop spawned), and logs the unknown-type message. -/
theorem c10_unknown_task_type_witness :
    (MonitorApp.start_task ⟨[TaskConfig.default], [.Idle], [some ()], []⟩ 0).map
        (fun a => a.task_statuses[0]?) = some (some TaskStatus.Running) ∧
    (MonitorApp.start_task ⟨[TaskConfig.default], [.Idle], [some ()], []⟩ 0).map
        (fun a => a.task_handles[0]?) = some (some none) ∧
    (MonitorApp.start_task ⟨[TaskConfig.default], [.Idle], [some ()], []⟩ 0).map
        (fun a => a.logs.getLast?) = some (some "Unknown task type: Static Web") ∧
    TaskConfig.default.task_type = "Static Web" := by
  obtain ⟨app', heq, h1, h2, h3, h4⟩ :=
    c10_unknown_task_type.1 ⟨[TaskConfig.default], [.Idle], [some ()], []⟩ 0
      ⟨rfl, rfl⟩ (by simp) rfl
  rw [heq]
  refine ⟨?_, ?_, ?_, rfl⟩
  · simp only [Option.map_some']
    rw [h1]
  · simp only [Option.map_some']
    rw [h2]
  · simp only [Option.map_some']
    rw [h3]
    rfl
